import Mathlib

/-!
Verification of the server bootstrap sequence of `web-home`
(`src/integration/bootstrap/main.server.ts` and `mongo-check.ts`).

The development shallowly embeds:
- the cache value model (JavaScript values stored in the LevelDB cache),
- the Data-Availability Decision `checkCacheForRequiredData`,
- the Reachability Prober `checkMongoDBConnectivity` with its one-shot
  resolution guard,
- the Database Connection Manager `connectToDatabase`, and
- the Bootstrap Orchestrator `bootstrapFn` (the flow after the LevelDB
  store has been initialized successfully; a failed initialization exits
  the process before any of the modelled steps run).
-/

namespace WebHome

/-- JavaScript values as stored in (and read from) the LevelDB cache.
Numbers are modelled as integers; objects as association lists. -/
inductive JSValue where
  | null
  | undefined
  | bool (b : Bool)
  | num (n : Int)
  | str (s : String)
  | arr (elems : List JSValue)
  | obj (fields : List (String × JSValue))

/-- JavaScript truthiness (`!!v`): `null`, `undefined`, `false`, `0` and
the empty string are falsy; arrays and objects are always truthy. -/
def truthy : JSValue → Bool
  | .null => false
  | .undefined => false
  | .bool b => b
  | .num n => n != 0
  | .str s => s != ""
  | .arr _ => true
  | .obj _ => true

/-- JavaScript property access `v.name`: a field of an object, and
`undefined` on anything that is not an object holding the field.
(In the translated code this is only applied under guards that rule out
`null`/`undefined` receivers, where JavaScript would throw.) -/
def getField (v : JSValue) (name : String) : JSValue :=
  match v with
  | .obj fields =>
    match fields.lookup name with
    | some x => x
    | none => .undefined
  | _ => .undefined

/-- JavaScript `typeof v === \x7bobject\x7d`: true for objects, arrays and
`null`. -/
def typeofIsObject : JSValue → Bool
  | .obj _ => true
  | .arr _ => true
  | .null => true
  | _ => false

/-- JavaScript `name in v` membership test (string keys on an object;
`false` on an array for a non-index key such as `data`). -/
def hasField (v : JSValue) (name : String) : Bool :=
  match v with
  | .obj fields => (fields.lookup name).isSome
  | _ => false

/-- Strict-equality test `v === null`. -/
def isNull : JSValue → Bool
  | .null => true
  | _ => false

/-- Strict-equality test `v === undefined`. -/
def isUndefined : JSValue → Bool
  | .undefined => true
  | _ => false

/-- JavaScript `Array.isArray`. -/
def isArray : JSValue → Bool
  | .arr _ => true
  | _ => false

/-- The element list of an array value (the translated code only reads it
after an `Array.isArray` guard). -/
def asArray : JSValue → List JSValue
  | .arr xs => xs
  | _ => []

mutual

/-- JavaScript string conversion, as performed by the template literal
interpolating a page id into a cache key. -/
def jsToString : JSValue → String
  | .null => "null"
  | .undefined => "undefined"
  | .bool b => if b then "true" else "false"
  | .num n => toString n
  | .str s => s
  | .arr xs => String.intercalate "," (jsArrElems xs)
  | .obj _ => "[object Object]"

/-- Element conversion inside `Array.prototype.toString`: `null` and
`undefined` elements become empty strings. -/
def jsArrElems : List JSValue → List String
  | [] => []
  | .null :: rest => "" :: jsArrElems rest
  | .undefined :: rest => "" :: jsArrElems rest
  | v :: rest => jsToString v :: jsArrElems rest

end

/-- A cache state: each key either yields a stored value, or the lookup
fails (`db.get` throws, covering both a missing key and an unexpected
store failure — the code handles the two identically at every call
site). -/
abbrev Cache := String → Option JSValue

/-- Key of the site record (`main.server.ts`, line 53). -/
def siteKey : String := "site:site-001"

/-- Key of the aggregated site-content record (line 54). -/
def siteContentKey : String := "site-content:site-001"

/-- Cache key of a page record: the template literal
`page:` followed by the interpolated page id (line 98). -/
def pageKey (pageId : JSValue) : String := "page:" ++ jsToString pageId

/-- Lines 59–67: the aggregated site-content lookup; a thrown lookup is
caught and recorded as `hasSiteContent = false`. -/
def hasSiteContent (cache : Cache) : Bool :=
  match cache siteContentKey with
  | some siteContent => truthy siteContent
  | none => false

/-- Lines 101–102: the condition under which a fetched page value is
counted as missing (`!pageData || typeof pageData !== \x7bobject\x7d ||
!(\x7bdata\x7d in pageData) || pageData.data === null ||
pageData.data === undefined`). -/
def pageIsMissing (pageData : JSValue) : Bool :=
  !truthy pageData || !typeofIsObject pageData || !hasField pageData "data" ||
    isNull (getField pageData "data") || isUndefined (getField pageData "data")

/-- Lines 96–110, one iteration: a page id counts as cached when its
lookup succeeds and the fetched value is not missing; a thrown lookup is
caught and the page counts as missing. -/
def pageInCache (cache : Cache) (pageId : JSValue) : Bool :=
  match cache (pageKey pageId) with
  | some pageData => !pageIsMissing pageData
  | none => false

/-- Lines 94–110: the collected `missingPages` list; `allPagesInCache`
is false exactly when this list is nonempty. -/
def missingPages (cache : Cache) (pageOrder : List JSValue) : List JSValue :=
  pageOrder.filter (fun pageId => !pageInCache cache pageId)

/-- The Data-Availability Decision (`checkCacheForRequiredData`,
lines 48–128). Returns `true` when MongoDB is needed (DATABASE_REQUIRED)
and `false` when the cache suffices (CACHE_SUFFICIENT):
1. if the aggregated site-content value is present and truthy, return
   `false` (lines 70–73);
2. look up the site record; a thrown lookup returns `true` (lines 78–86);
3. if `siteData && siteData.data && siteData.data.pageOrder &&
   Array.isArray(siteData.data.pageOrder)` (line 89), return `false`
   when no listed page is missing and `true` otherwise (lines 112–118);
4. otherwise return `true` (lines 121–123). -/
def checkCacheForRequiredData (cache : Cache) : Bool :=
  if hasSiteContent cache then
    false
  else
    match cache siteKey with
    | none => true
    | some siteData =>
      let pageOrderVal := getField (getField siteData "data") "pageOrder"
      if truthy siteData && truthy (getField siteData "data") &&
          truthy pageOrderVal && isArray pageOrderVal then
        if (missingPages cache (asArray pageOrderVal)).isEmpty then
          false
        else
          true
      else
        true

/-! ## Reachability Prober (`mongo-check.ts`) -/

/-- Status of the `MONGO_URI` configuration value: unset, set but failing
URL parsing, or parsed into a host and port (default 27017 applied). -/
inductive URIStatus where
  | absent
  | unparseable
  | parseable (host : String) (port : Nat)

/-- One of the socket events the probe listens for
(`mongo-check.ts`, lines registering `connect`, `timeout`, `error`). -/
inductive ProbeEvent where
  | connect
  | timeout
  | error
deriving DecidableEq

/-- The success value `finalizeCheck` is called with for each event:
`connect` reports success, `timeout` and `error` report failure. -/
def eventSuccess : ProbeEvent → Bool
  | .connect => true
  | .timeout => false
  | .error => false

/-- State of the probe's promise: the one-shot `resolved` flag, the
number of times `resolve` has been called, and the value the promise
resolved to (if any). -/
structure ProbeState where
  resolved : Bool
  resolveCount : Nat
  result : Option Bool
deriving DecidableEq

/-- State of the promise before any socket event has fired. -/
def initialProbeState : ProbeState := ⟨false, 0, none⟩

/-- The `finalizeCheck` closure of `checkMongoDBConnectivity`: resolves
the promise with `success` unless the `resolved` flag is already set, in
which case the call is discarded. -/
def finalizeCheck (st : ProbeState) (success : Bool) : ProbeState :=
  if st.resolved then
    st
  else
    { resolved := true, resolveCount := st.resolveCount + 1, result := some success }

/-- The probe's event loop: the socket events fire in some order and each
one invokes `finalizeCheck` with its success value. -/
def runProbe (events : List ProbeEvent) : ProbeState :=
  events.foldl (fun st e => finalizeCheck st (eventSuccess e)) initialProbeState

/-- The Reachability Prober (`checkMongoDBConnectivity`): with no
`MONGO_URI` it returns `false` without probing; with an unparseable URI
the thrown parse error is caught and it returns `false`; with a
parseable URI it resolves to whatever the probe's promise resolved to
(`none` meaning no event ever fired and the promise is still pending). -/
def checkMongoDBConnectivity (uri : URIStatus) (events : List ProbeEvent) :
    Option Bool :=
  match uri with
  | .absent => some false
  | .unparseable => some false
  | .parseable _ _ => (runProbe events).result

/-! ## Database Connection Manager (`connectToDatabase`, lines 131–231) -/

/-- Outcomes of the external steps `connectToDatabase` performs once its
own TCP test is reached: whether the TCP test socket connects, whether
`mongoose.connect` resolves, and whether the connection afterwards
reports the connected ready state. -/
structure ConnectEnv where
  tcpTestOk : Bool
  mongooseConnectOk : Bool
  readyStateConnected : Bool

/-- The Database Connection Manager. Returns the success boolean together
with the number of TCP connection-test attempts it made:
no URI → `false` with no attempt (lines 136–139); an unparseable URI
throws inside the inner `try` and returns `false` with no attempt
(lines 174–178); otherwise exactly one TCP test runs, and failure of the
test, of `mongoose.connect`, or of the ready-state verification each
yield `false` (lines 142–230). -/
def connectToDatabase (uri : URIStatus) (env : ConnectEnv) : Bool × Nat :=
  match uri with
  | .absent => (false, 0)
  | .unparseable => (false, 0)
  | .parseable _ _ =>
    if !env.tcpTestOk then (false, 1)
    else if !env.mongooseConnectOk then (false, 1)
    else if !env.readyStateConnected then (false, 1)
    else (true, 1)

/-! ## Bootstrap Orchestrator (`bootstrapFn`, lines 234–305) -/

/-- Terminal observation of a bootstrap run: the process exited with a
code, or the application is running with the injected provider resolving
to `mongoConnected`. -/
inductive BootstrapOutcome where
  | exited (code : Nat)
  | running (mongoConnected : Bool)
deriving DecidableEq

/-- Trace of one bootstrap run: its outcome, how many times
`connectToDatabase` was invoked, and how many transport-level connection
attempts were made by the Prober and by the Connection Manager. -/
structure BootstrapTrace where
  outcome : BootstrapOutcome
  dbConnectCalls : Nat
  proberProbes : Nat
  connectProbes : Nat
deriving DecidableEq

/-- Transport connection attempts made by one invocation of the Prober:
exactly one `socket.connect` when the URI parses, none otherwise. -/
def proberProbeCount : URIStatus → Nat
  | .parseable _ _ => 1
  | _ => 0

/-- The Bootstrap Orchestrator after a successful cache-store
initialization (lines 253–300): run the Prober, run the Decision, then
- DATABASE_REQUIRED and unreachable → `process.exit(1)` before any
  connection attempt (lines 261–264);
- DATABASE_REQUIRED and reachable → invoke `connectToDatabase` once;
  on failure `process.exit(1)` (lines 273–282), on success hand the
  application a provider resolving to `true`;
- CACHE_SUFFICIENT → skip `connectToDatabase` and hand the application
  a provider resolving to `false` (lines 283–299).
`none` models the run never completing because the probe's promise never
resolved. -/
def bootstrapFn (uri : URIStatus) (events : List ProbeEvent) (cache : Cache)
    (cenv : ConnectEnv) : Option BootstrapTrace :=
  match checkMongoDBConnectivity uri events with
  | none => none
  | some mongodbAccessible =>
    let needsMongoDB := checkCacheForRequiredData cache
    if needsMongoDB && !mongodbAccessible then
      some { outcome := .exited 1, dbConnectCalls := 0,
             proberProbes := proberProbeCount uri, connectProbes := 0 }
    else if needsMongoDB then
      let res := connectToDatabase uri cenv
      if res.1 then
        some { outcome := .running true, dbConnectCalls := 1,
               proberProbes := proberProbeCount uri, connectProbes := res.2 }
      else
        some { outcome := .exited 1, dbConnectCalls := 1,
               proberProbes := proberProbeCount uri, connectProbes := res.2 }
    else
      some { outcome := .running false, dbConnectCalls := 0,
             proberProbes := proberProbeCount uri, connectProbes := 0 }

/-! ## Concrete cache states used as witnesses and counterexamples -/

/-- The empty cache: every lookup fails. -/
def emptyCache : Cache := fun _ => none

/-- A cache holding only the aggregated site-content record. -/
def contentOnlyCache : Cache := fun k =>
  if k = siteContentKey then some (.obj [("id", .str "site-001")]) else none

/-- A cache holding the site record with `pageOrder = ["p1", "p2"]` and
both listed page records, but no aggregated site-content record. -/
def fullPagesCache : Cache := fun k =>
  if k = siteKey then
    some (.obj [("data", .obj [("pageOrder", .arr [.str "p1", .str "p2"])])])
  else if k = "page:p1" then some (.obj [("data", .obj [("title", .str "Home")])])
  else if k = "page:p2" then some (.obj [("data", .str "x")])
  else none

/-- A cache holding a site record whose `pageOrder` sits at the top level
of the record instead of under its `data` field. -/
def misplacedOrderCache : Cache := fun k =>
  if k = siteKey then some (.obj [("pageOrder", .arr [.str "p1"])]) else none

/-- A cache whose aggregated-content lookup fails while the site record
is present with an empty `pageOrder`. -/
def emptyOrderCache : Cache := fun k =>
  if k = siteKey then some (.obj [("data", .obj [("pageOrder", .arr [])])])
  else none

/-! ## Helper lemmas about the Decision -/

/-- Truthy values are never `null`. -/
theorem truthy_isNull_false {v : JSValue} (h : truthy v = true) :
    isNull v = false := by
  cases v <;> simp_all [truthy, isNull]

/-- Unfolding of the page-missing condition into its five conjuncts. -/
theorem pageIsMissing_false_iff (pd : JSValue) :
    pageIsMissing pd = false ↔
      truthy pd = true ∧ typeofIsObject pd = true ∧ hasField pd "data" = true ∧
      isNull (getField pd "data") = false ∧
      isUndefined (getField pd "data") = false := by
  simp [pageIsMissing, and_assoc]

/-- A value whose property access yields an array is an object, hence
truthy. -/
theorem truthy_of_getField_eq_arr {v : JSValue} {name : String}
    {xs : List JSValue} (h : getField v name = JSValue.arr xs) :
    truthy v = true := by
  cases v <;> simp_all [getField, truthy]

/-- A page record stored as an object whose `data` field is neither
`null` nor `undefined` passes the page check. -/
theorem pageIsMissing_false_of_obj {fields : List (String × JSValue)}
    {d : JSValue} (hd : fields.lookup "data" = some d)
    (hn : isNull d = false) (hu : isUndefined d = false) :
    pageIsMissing (JSValue.obj fields) = false := by
  rw [pageIsMissing_false_iff]
  refine ⟨rfl, rfl, ?_, ?_, ?_⟩ <;> simp [hasField, getField, hd, hn, hu]

/-! ## Claims about the Data-Availability Decision -/

/-- Claim C1: the Decision reports CACHE_SUFFICIENT (returns `false`,
"MongoDB not needed") only if the aggregated site-content record exists
in the cache, or the site record exists and every page id listed in its
`pageOrder` resolves to a non-null page record carrying a `data` field.
Since the Decision is a total boolean function, the contrapositive gives
the second half of the claim: in every other cache state it reports
DATABASE_REQUIRED (returns `true`). -/
theorem decision_sufficient_only_if_cached (cache : Cache)
    (h : checkCacheForRequiredData cache = false) :
    (∃ v, cache siteContentKey = some v) ∨
    (∃ s, cache siteKey = some s ∧
      ∀ pids, getField (getField s "data") "pageOrder" = JSValue.arr pids →
        ∀ pid ∈ pids, ∃ pd, cache (pageKey pid) = some pd ∧
          isNull pd = false ∧ hasField pd "data" = true) := by
  unfold checkCacheForRequiredData at h
  cases hc : hasSiteContent cache with
  | true =>
    left
    unfold hasSiteContent at hc
    cases hcc : cache siteContentKey with
    | some v => exact ⟨v, rfl⟩
    | none => rw [hcc] at hc; cases hc
  | false =>
    rw [hc] at h
    simp only [Bool.false_eq_true, if_false] at h
    cases hs : cache siteKey with
    | none => rw [hs] at h; cases h
    | some s =>
      rw [hs] at h
      dsimp only at h
      right
      refine ⟨s, rfl, ?_⟩
      intro pids hpo pid hpid
      split at h
      next hcond =>
        split at h
        next hemp =>
          rw [hpo] at hemp
          simp only [asArray] at hemp
          have hnil : missingPages cache pids = [] := List.isEmpty_iff.mp hemp
          have hpage : pageInCache cache pid = true := by
            have := List.filter_eq_nil_iff.mp hnil pid hpid
            simpa using this
          unfold pageInCache at hpage
          cases hpd : cache (pageKey pid) with
          | none => rw [hpd] at hpage; cases hpage
          | some pd =>
            rw [hpd] at hpage
            have hmiss : pageIsMissing pd = false := by simpa using hpage
            obtain ⟨ht, _, hf, _, _⟩ := (pageIsMissing_false_iff pd).mp hmiss
            exact ⟨pd, rfl, truthy_isNull_false ht, hf⟩
        next => cases h
      next => cases h

/-- Witness for C1 at the cache holding only the aggregated record. -/
theorem decision_sufficient_only_if_cached_witness :
    (∃ v, contentOnlyCache siteContentKey = some v) ∨
    (∃ s, contentOnlyCache siteKey = some s ∧
      ∀ pids, getField (getField s "data") "pageOrder" = JSValue.arr pids →
        ∀ pid ∈ pids, ∃ pd, contentOnlyCache (pageKey pid) = some pd ∧
          isNull pd = false ∧ hasField pd "data" = true) :=
  decision_sufficient_only_if_cached contentOnlyCache (by decide)

/-- Claim C2: whenever the aggregated site-content key holds a truthy
value, the Decision returns CACHE_SUFFICIENT; the statement quantifies
over every cache with that key set, so no other cache key influences the
result. -/
theorem siteContent_present_sufficient (cache : Cache) (v : JSValue)
    (hv : cache siteContentKey = some v) (ht : truthy v = true) :
    checkCacheForRequiredData cache = false := by
  unfold checkCacheForRequiredData
  have hc : hasSiteContent cache = true := by
    unfold hasSiteContent; rw [hv]; exact ht
  rw [hc]
  simp

/-- Witness for C2: the aggregated record alone suffices even though no
site or page record is cached. -/
theorem siteContent_present_sufficient_witness :
    checkCacheForRequiredData contentOnlyCache = false :=
  siteContent_present_sufficient contentOnlyCache
    (JSValue.obj [("id", JSValue.str "site-001")]) rfl rfl

/-- Claim C3: with the aggregated key absent but the site record present,
its `pageOrder` an array under its `data` field, and every listed page id
resolving to a cached object with a non-null, non-undefined `data` field,
the Decision returns CACHE_SUFFICIENT. -/
theorem all_pages_cached_sufficient (cache : Cache) (s : JSValue)
    (pids : List JSValue)
    (hnc : cache siteContentKey = none)
    (hs : cache siteKey = some s)
    (hpo : getField (getField s "data") "pageOrder" = JSValue.arr pids)
    (hpages : ∀ pid ∈ pids, ∃ fields d,
        cache (pageKey pid) = some (JSValue.obj fields) ∧
        fields.lookup "data" = some d ∧
        isNull d = false ∧ isUndefined d = false) :
    checkCacheForRequiredData cache = false := by
  unfold checkCacheForRequiredData
  have hc : hasSiteContent cache = false := by
    unfold hasSiteContent; rw [hnc]
  rw [hc]
  simp only [Bool.false_eq_true, if_false]
  rw [hs]
  dsimp only
  have htd : truthy (getField s "data") = true :=
    truthy_of_getField_eq_arr hpo
  have hts : truthy s = true := by
    cases s <;> simp_all [getField, truthy]
  have hnil : missingPages cache pids = [] := by
    refine List.filter_eq_nil_iff.mpr ?_
    intro pid hpid
    obtain ⟨fields, d, hcd, hld, hn, hu⟩ := hpages pid hpid
    unfold pageInCache
    rw [hcd]
    simp [pageIsMissing_false_of_obj hld hn hu]
  rw [hpo, hts, htd]
  simp [truthy, isArray, asArray, hnil]

/-- Witness for C3 at a cache with a two-page site fully cached. -/
theorem all_pages_cached_sufficient_witness :
    checkCacheForRequiredData fullPagesCache = false :=
  all_pages_cached_sufficient fullPagesCache
    (JSValue.obj [("data", JSValue.obj
      [("pageOrder", JSValue.arr [JSValue.str "p1", JSValue.str "p2"])])])
    [JSValue.str "p1", JSValue.str "p2"] rfl rfl rfl
    (by
      intro pid hpid
      simp only [List.mem_cons, List.not_mem_nil, or_false] at hpid
      rcases hpid with rfl | rfl
      · exact ⟨[("data", JSValue.obj [("title", JSValue.str "Home")])],
          JSValue.obj [("title", JSValue.str "Home")], rfl, rfl, rfl, rfl⟩
      · exact ⟨[("data", JSValue.str "x")], JSValue.str "x",
          rfl, rfl, rfl, rfl⟩)

/-- The default branch of the Decision: aggregated key absent, site
record present, but `siteData.data.pageOrder` is not an array. -/
theorem default_branch_requires_db (cache : Cache) (s : JSValue)
    (hnc : cache siteContentKey = none)
    (hs : cache siteKey = some s)
    (hpo : isArray (getField (getField s "data") "pageOrder") = false) :
    checkCacheForRequiredData cache = true := by
  unfold checkCacheForRequiredData
  have hc : hasSiteContent cache = false := by
    unfold hasSiteContent; rw [hnc]
  rw [hc]
  simp only [Bool.false_eq_true, if_false]
  rw [hs]
  dsimp only
  rw [hpo]
  simp

/-- Claim C10: with the aggregated key absent and the site record present
but its `pageOrder` missing, not nested under the record's `data` field,
or not an array (all of which leave `siteData.data.pageOrder` a
non-array), the Decision returns DATABASE_REQUIRED; moreover the result
only depends on the aggregated and site keys — it stays DATABASE_REQUIRED
for every cache agreeing on those two keys, so no page record is
inspected. -/
theorem pageOrder_invalid_requires_db (cache : Cache) (s : JSValue)
    (hnc : cache siteContentKey = none)
    (hs : cache siteKey = some s)
    (hpo : isArray (getField (getField s "data") "pageOrder") = false) :
    checkCacheForRequiredData cache = true ∧
    ∀ cache' : Cache, cache' siteContentKey = cache siteContentKey →
      cache' siteKey = cache siteKey →
      checkCacheForRequiredData cache' = true := by
  refine ⟨default_branch_requires_db cache s hnc hs hpo, ?_⟩
  intro cache' h1 h2
  exact default_branch_requires_db cache' s (h1.trans hnc) (h2.trans hs) hpo

/-- Witness for C10 at a cache whose site record keeps `pageOrder` at the
top level instead of under `data`. -/
theorem pageOrder_invalid_requires_db_witness :
    checkCacheForRequiredData misplacedOrderCache = true :=
  (pageOrder_invalid_requires_db misplacedOrderCache
    (JSValue.obj [("pageOrder", JSValue.arr [JSValue.str "p1"])])
    rfl rfl rfl).1

/-! ## Claims about the Reachability Prober -/

/-- Once the one-shot flag is set, every further event leaves the probe
state unchanged. -/
theorem foldl_finalize_resolved (events : List ProbeEvent) (st : ProbeState)
    (h : st.resolved = true) :
    events.foldl (fun st e => finalizeCheck st (eventSuccess e)) st = st := by
  induction events with
  | nil => rfl
  | cons e rest ih =>
    rw [List.foldl_cons]
    have hstep : finalizeCheck st (eventSuccess e) = st := by
      unfold finalizeCheck; rw [h]; simp
    rw [hstep]
    exact ih

/-- Claim C6: with a parseable URI, however many socket events fire for
the probe (at least one, in any order), `resolve` is called exactly once;
the promise resolves to the outcome of the first event and every later
firing is discarded by the one-shot resolution flag. -/
theorem prober_resolves_exactly_once (host : String) (port : Nat)
    (e : ProbeEvent) (rest : List ProbeEvent) :
    checkMongoDBConnectivity (.parseable host port) (e :: rest) =
      some (eventSuccess e) ∧
    (runProbe (e :: rest)).resolveCount = 1 ∧
    (runProbe (e :: rest)).resolved = true := by
  have hrun : runProbe (e :: rest) = ⟨true, 1, some (eventSuccess e)⟩ := by
    unfold runProbe
    rw [List.foldl_cons]
    have h1 : finalizeCheck initialProbeState (eventSuccess e) =
        ⟨true, 1, some (eventSuccess e)⟩ := by
      unfold finalizeCheck initialProbeState; simp
    rw [h1]
    exact foldl_finalize_resolved rest _ rfl
  unfold checkMongoDBConnectivity
  rw [hrun]
  exact ⟨rfl, rfl, rfl⟩

/-! ## Claims about the Bootstrap Orchestrator -/

/-- Claim C4: when the Decision is DATABASE_REQUIRED and the
reachability probe resolved to `false`, the Orchestrator terminates the
process with exit code 1 without invoking `connectToDatabase` and
without any TCP connection attempt beyond the probe itself. -/
theorem db_required_unreachable_aborts (uri : URIStatus)
    (events : List ProbeEvent) (cache : Cache) (cenv : ConnectEnv)
    (hprobe : checkMongoDBConnectivity uri events = some false)
    (hneed : checkCacheForRequiredData cache = true) :
    bootstrapFn uri events cache cenv =
      some { outcome := .exited 1, dbConnectCalls := 0,
             proberProbes := proberProbeCount uri, connectProbes := 0 } := by
  unfold bootstrapFn
  rw [hprobe]
  simp [hneed]

/-- Witness for C4: the empty cache with no URI configured. -/
theorem db_required_unreachable_aborts_witness :
    bootstrapFn .absent [] emptyCache ⟨false, false, false⟩ =
      some { outcome := .exited 1, dbConnectCalls := 0, proberProbes := 0,
             connectProbes := 0 } :=
  db_required_unreachable_aborts .absent [] emptyCache ⟨false, false, false⟩
    rfl (by decide)

/-- Claim C5: when the Decision is CACHE_SUFFICIENT, whatever the probe
resolved to, the Orchestrator never invokes `connectToDatabase` (no
invocation and no TCP attempt by the Connection Manager) and completes
with the injected provider resolving to `false`. -/
theorem cache_sufficient_skips_db (uri : URIStatus)
    (events : List ProbeEvent) (cache : Cache) (cenv : ConnectEnv)
    (acc : Bool)
    (hprobe : checkMongoDBConnectivity uri events = some acc)
    (hsuff : checkCacheForRequiredData cache = false) :
    bootstrapFn uri events cache cenv =
      some { outcome := .running false, dbConnectCalls := 0,
             proberProbes := proberProbeCount uri, connectProbes := 0 } := by
  unfold bootstrapFn
  rw [hprobe]
  simp [hsuff]

/-- Witness for C5: aggregated content cached, endpoint reachable. -/
theorem cache_sufficient_skips_db_witness :
    bootstrapFn (.parseable "db.example" 27017) [.connect] contentOnlyCache
      ⟨true, true, true⟩ =
      some { outcome := .running false, dbConnectCalls := 0, proberProbes := 1,
             connectProbes := 0 } :=
  cache_sufficient_skips_db (.parseable "db.example" 27017) [.connect]
    contentOnlyCache ⟨true, true, true⟩ true rfl (by decide)

/-- Counterexample to C7 as stated: in `emptyOrderCache` the
aggregated-key lookup fails (`db.get` throws), yet the Decision returns
CACHE_SUFFICIENT — the failure is treated as mere absence and the
site/pages path still succeeds, so not every lookup failure is mapped to
DATABASE_REQUIRED. -/
theorem aggregated_lookup_failure_not_required :
    emptyOrderCache siteContentKey = none ∧
    checkCacheForRequiredData emptyOrderCache = false :=
  ⟨rfl, by decide⟩

/-- Claim C7 (amended): every lookup failure is absorbed — the Decision
is a total function — but only failures of the site-record lookup and of
the page lookups are mapped to DATABASE_REQUIRED; a failure of the
aggregated-key lookup is treated as the key being absent and the check
falls through to the site/pages path. -/
theorem lookup_failures_absorbed (cache : Cache) :
    (hasSiteContent cache = false → cache siteKey = none →
      checkCacheForRequiredData cache = true) ∧
    (∀ s pids pid, hasSiteContent cache = false →
      cache siteKey = some s →
      getField (getField s "data") "pageOrder" = JSValue.arr pids →
      pid ∈ pids → cache (pageKey pid) = none →
      checkCacheForRequiredData cache = true) := by
  constructor
  · intro hc hsn
    unfold checkCacheForRequiredData
    rw [hc]
    simp only [Bool.false_eq_true, if_false]
    rw [hsn]
  · intro s pids pid hc hs hpo hpid hpd
    unfold checkCacheForRequiredData
    rw [hc]
    simp only [Bool.false_eq_true, if_false]
    rw [hs]
    dsimp only
    have htd : truthy (getField s "data") = true :=
      truthy_of_getField_eq_arr hpo
    have hts : truthy s = true := by
      cases s <;> simp_all [getField, truthy]
    have hmem : pid ∈ missingPages cache pids := by
      refine List.mem_filter.mpr ⟨hpid, ?_⟩
      unfold pageInCache
      rw [hpd]
      rfl
    have hemp : (missingPages cache pids).isEmpty = false := by
      cases hmp : missingPages cache pids with
      | nil => rw [hmp] at hmem; cases hmem
      | cons a l => rfl
    rw [hpo, hts, htd]
    simp [truthy, isArray, asArray, hemp]

/-- Witness for C7 (amended), first conjunct: the empty cache, where the
site-record lookup fails and the Decision reports DATABASE_REQUIRED. -/
theorem lookup_failures_absorbed_witness :
    checkCacheForRequiredData emptyCache = true :=
  (lookup_failures_absorbed emptyCache).1 rfl rfl

/-- Counterexample to C8 as stated: with no `MONGO_URI` configured and an
empty cache, the bootstrap terminates the process with exit code 1, so
URI absence does not guarantee a failure-free bootstrap for every cache
state. -/
theorem no_uri_can_still_abort :
    bootstrapFn .absent [] emptyCache ⟨false, false, false⟩ =
      some { outcome := .exited 1, dbConnectCalls := 0, proberProbes := 0,
             connectProbes := 0 } := by
  decide

/-- Claim C8 (amended): absence of the URI is itself non-fatal — the
connectivity check returns `false` without probing and the Connection
Manager returns `false` without connecting rather than raising — and
whenever the cache holds all required data the bootstrap completes in
cache-only operation; only when required data is also missing from the
cache does the fail-fast abort fire. -/
theorem no_uri_nonfatal (events : List ProbeEvent) (cache : Cache)
    (cenv : ConnectEnv) :
    checkMongoDBConnectivity .absent events = some false ∧
    connectToDatabase .absent cenv = (false, 0) ∧
    (checkCacheForRequiredData cache = false →
      bootstrapFn .absent events cache cenv =
        some { outcome := .running false, dbConnectCalls := 0,
               proberProbes := 0, connectProbes := 0 }) := by
  refine ⟨rfl, rfl, fun h => ?_⟩
  unfold bootstrapFn
  simp [checkMongoDBConnectivity, proberProbeCount, h]

/-- Witness for C8 (amended) at the cache holding the aggregated
record. -/
theorem no_uri_nonfatal_witness :
    checkCacheForRequiredData contentOnlyCache = false ∧
    bootstrapFn .absent [] contentOnlyCache ⟨false, false, false⟩ =
      some { outcome := .running false, dbConnectCalls := 0, proberProbes := 0,
             connectProbes := 0 } :=
  ⟨by decide,
    (no_uri_nonfatal [] contentOnlyCache ⟨false, false, false⟩).2.2 (by decide)⟩

/-- Counterexample to C9 as stated: on the connecting path (required
data missing, endpoint reachable) the endpoint is probed twice — once by
the Prober and once by the TCP test inside `connectToDatabase` — not a
single time. -/
theorem endpoint_probed_twice_on_connect_path :
    (bootstrapFn (.parseable "localhost" 27017) [.connect] emptyCache
        ⟨true, true, true⟩).map (fun t => t.proberProbes + t.connectProbes) ≠
      some 1 ∧
    (bootstrapFn (.parseable "localhost" 27017) [.connect] emptyCache
        ⟨true, true, true⟩).map (fun t => t.proberProbes + t.connectProbes) =
      some 2 := by
  constructor
  · decide
  · decide

/-- The Connection Manager makes at most one TCP connection attempt. -/
theorem connectToDatabase_probes_le_one (uri : URIStatus)
    (cenv : ConnectEnv) : (connectToDatabase uri cenv).2 ≤ 1 := by
  obtain ⟨tcp, mc, rs⟩ := cenv
  cases uri <;> cases tcp <;> cases mc <;> cases rs <;>
    simp [connectToDatabase]

/-- Claim C9 (amended): no connectivity check is ever retried — the
Prober makes exactly one transport attempt per bootstrap when the URI
parses (none otherwise), `connectToDatabase` is invoked at most once,
and its own TCP test runs at most once — but on the connecting path the
endpoint is probed a second time by that TCP test, so the total is two
attempts rather than one. -/
theorem each_check_attempted_once (uri : URIStatus)
    (events : List ProbeEvent) (cache : Cache) (cenv : ConnectEnv)
    (t : BootstrapTrace)
    (h : bootstrapFn uri events cache cenv = some t) :
    t.proberProbes = proberProbeCount uri ∧ proberProbeCount uri ≤ 1 ∧
    t.dbConnectCalls ≤ 1 ∧ t.connectProbes ≤ 1 := by
  have hp : proberProbeCount uri ≤ 1 := by
    cases uri <;> simp [proberProbeCount]
  unfold bootstrapFn at h
  cases hpr : checkMongoDBConnectivity uri events with
  | none => rw [hpr] at h; cases h
  | some acc =>
    rw [hpr] at h
    dsimp only at h
    split at h
    next =>
      simp only [Option.some.injEq] at h
      subst h
      exact ⟨rfl, hp, by simp, by simp⟩
    next =>
      split at h
      next =>
        split at h
        next =>
          simp only [Option.some.injEq] at h
          subst h
          exact ⟨rfl, hp, le_refl 1, connectToDatabase_probes_le_one uri cenv⟩
        next =>
          simp only [Option.some.injEq] at h
          subst h
          exact ⟨rfl, hp, le_refl 1, connectToDatabase_probes_le_one uri cenv⟩
      next =>
        simp only [Option.some.injEq] at h
        subst h
        exact ⟨rfl, hp, by simp, by simp⟩

/-- Witness for C9 (amended) on the connecting path. -/
theorem each_check_attempted_once_witness :
    (1 : Nat) = proberProbeCount (.parseable "localhost" 27017) ∧
    proberProbeCount (.parseable "localhost" 27017) ≤ 1 ∧
    (1 : Nat) ≤ 1 ∧ (1 : Nat) ≤ 1 :=
  each_check_attempted_once (.parseable "localhost" 27017) [.connect]
    emptyCache ⟨true, true, true⟩
    { outcome := .running true, dbConnectCalls := 1, proberProbes := 1,
      connectProbes := 1 }
    (by decide)

end WebHome
